import Mathlib

/-!
Shallow embedding of the consul-mcp-server aggregation/inference/diagnosis
pipeline (TypeScript sources under `src/resources` and `src/tools`).

Conventions of the embedding:
* TypeScript string-literal union types (`HealthStatus`, connection status)
  are embedded as `String`, compared with `=` exactly as the code compares
  with `===`.
* JavaScript numbers are embedded as exact rationals (`ℚ`); decimal literal
  thresholds such as `0.05` are the exact rationals the code writes.
  `Math.floor` is `Int.floor`.
* `Math.sin` is an external transcendental function; every definition that
  consumes the seeded generator is parametrised by an arbitrary
  `msin : Int → ℚ` standing for `Math.sin`, so theorems hold for every
  possible behaviour of it.
* The Consul registry reads (`catalog.service.list`, `agent.check.list`,
  `connect.intentions.list`) are external collaborator calls; they appear
  as explicit inputs.  A failed intentions query is the `none` input.
* JavaScript `Map` objects are association lists in insertion order;
  JavaScript `Set` dedup keeps first-occurrence order (`dedup`).
-/

/-- JS 32-bit signed truncation (the `hash & hash` / `<< 5` coercions in
`hashString`). -/
def toInt32 (n : Int) : Int := (n + 2 ^ 31) % 2 ^ 32 - 2 ^ 31

/-- One step of `hashString`: `hash = ((hash << 5) - hash) + char; hash = hash & hash`.
The shift result is itself truncated to 32 bits, then the subtraction and
addition are exact (doubles), and the final `& `truncates again. -/
def hashStep (hash : Int) (c : Nat) : Int := toInt32 (toInt32 (hash * 32) - hash + c)

/-- `ConsulClient.hashString` / `ServiceManager.hashString` (identical code):
fold `hashStep` over the char codes, then `Math.abs`. -/
def hashString (s : String) : Nat :=
  (s.toList.foldl (fun h c => hashStep h c.toNat) 0).natAbs

/-- Fractional part `x - Math.floor(x)` used by `seededRandom`. -/
def fract (x : ℚ) : ℚ := x - (⌊x⌋ : ℚ)

/-- The i-th value drawn from `seededRandom(seed)`: the closure increments its
captured seed on every call, so draw `i` is `sin(seed + i) * 10000` minus its
floor.  `msin` stands for `Math.sin`. -/
def randAt (msin : Int → ℚ) (seed : Nat) (i : Nat) : ℚ :=
  fract (msin ((seed : Int) + i) * 10000)

/-- A Consul health check as surfaced by `ConsulClient` (interface `HealthCheck`). -/
structure HealthCheck where
  id : String
  name : String
  status : String
  output : String
  notes : Option String := none
  serviceId : Option String := none
  serviceName : Option String := none
deriving DecidableEq, Repr

/-- Rolled-up health of one service (interface `ServiceHealth`). -/
structure ServiceHealth where
  status : String
  checks : List HealthCheck
deriving DecidableEq, Repr

/-- A service record built by `ConsulClient.getServices` (interface `ConsulService`).
`meta` is an insertion-ordered association list. -/
structure ConsulService where
  id : String
  name : String
  address : String
  port : String
  node : String
  tags : List String
  meta : List (String × String)
  health : ServiceHealth
deriving DecidableEq, Repr

/-- A connection edge (interface `ServiceConnection`). -/
structure ServiceConnection where
  source : String
  destination : String
  status : String
  protocol : String
  usesServiceMesh : Bool
  intentionAction : Option String := none
  latency : Option Int := none
  errorRate : Option ℚ := none
  requestVolume : Option Int := none
  errorMessage : Option String := none
deriving DecidableEq, Repr

/-- `ConsulClient.getRandomErrorMessage`: fixed list indexed by
`Math.floor(rand * errors.length)`.  An out-of-range index yields JS
`undefined`; it cannot occur for draws in `[0,1)` and is embedded as `""`. -/
def getRandomErrorMessage (rand : ℚ) : String :=
  let errors := ["Connection timeout", "Service unavailable", "Internal server error",
    "Bad gateway", "Too many requests", "Connection refused",
    "DNS resolution failed", "TLS handshake failed"]
  errors.getD (⌊rand * errors.length⌋).toNat ""

/-- `ConsulClient.enhanceConnectionWithMetrics`: blocked connections are
returned as a shallow copy; otherwise three values are drawn from the
generator seeded by `hash("source-destination")` (latency, errorRate,
requestVolume in that order), the status is re-derived from the drawn error
rate, and on degradation a fourth draw selects the error message. -/
def enhanceConnectionWithMetrics (msin : Int → ℚ) (connection : ServiceConnection) :
    ServiceConnection :=
  if connection.status = "blocked" then connection
  else
    let seed := hashString (connection.source ++ "-" ++ connection.destination)
    let r := randAt msin seed
    let latency : Int := ⌊r 0 * 450⌋ + 50
    let errorRate : ℚ := r 1 * 0.1
    let requestVolume : Int := ⌊r 2 * 990⌋ + 10
    let base := { connection with
      latency := some latency
      errorRate := some errorRate
      requestVolume := some requestVolume }
    if errorRate > 0.05 then
      { base with status := "degraded", errorMessage := some (getRandomErrorMessage (r 3)) }
    else if errorRate > 0 then { base with status := "warning" }
    else if connection.status = "inferred" then { base with status := "healthy" }
    else base

/-- `ServiceManager.getServiceMetrics`: deterministic pseudo-metrics seeded by
the hash of the service name; the ten draws happen in the textual order of the
object literal. -/
structure ServiceMetrics where
  serviceName : String
  cpuUsage : ℚ
  cpuCores : Int
  memoryUsed : Int
  memoryTotal : Int
  rxBytes : Int
  txBytes : Int
  requestRate : Int
  errorRate : ℚ
  p50 : Int
  p90 : Int
  p99 : Int
deriving DecidableEq, Repr

/-- `ServiceManager.getServiceMetrics` body. -/
def getServiceMetrics (msin : Int → ℚ) (serviceName : String) : ServiceMetrics :=
  let seed := hashString serviceName
  let r := randAt msin seed
  { serviceName := serviceName
    cpuUsage := r 0 * 0.8
    cpuCores := ⌊r 1 * 4⌋ + 1
    memoryUsed := ⌊r 2 * 900⌋ + 100
    memoryTotal := 1024
    rxBytes := ⌊r 3 * 100000⌋
    txBytes := ⌊r 4 * 100000⌋
    requestRate := ⌊r 5 * 1000⌋
    errorRate := r 6 * 0.1
    p50 := ⌊r 7 * 100⌋ + 20
    p90 := ⌊r 8 * 200⌋ + 100
    p99 := ⌊r 9 * 500⌋ + 200 }

/-- C2: for every connection through metric synthesis, a blocked connection is
returned unchanged; otherwise the returned status is "degraded" when the drawn
errorRate exceeds 0.05, "warning" when it is in (0, 0.05], and "healthy" when
it is 0 and the original status was "inferred". -/
theorem claim_C2_enhance_status (msin : Int → ℚ) (conn : ServiceConnection) :
    (conn.status = "blocked" → enhanceConnectionWithMetrics msin conn = conn) ∧
    (conn.status ≠ "blocked" →
      ∀ er : ℚ, (enhanceConnectionWithMetrics msin conn).errorRate = some er →
        (er > 0.05 → (enhanceConnectionWithMetrics msin conn).status = "degraded") ∧
        (0 < er → er ≤ 0.05 → (enhanceConnectionWithMetrics msin conn).status = "warning") ∧
        (er = 0 → conn.status = "inferred" →
          (enhanceConnectionWithMetrics msin conn).status = "healthy")) := by
  constructor
  · intro hb
    simp [enhanceConnectionWithMetrics, hb]
  · intro hnb er her
    simp only [enhanceConnectionWithMetrics, if_neg hnb] at her ⊢
    by_cases h1 : randAt msin (hashString (conn.source ++ "-" ++ conn.destination)) 1 * 0.1 > 0.05
    · simp only [if_pos h1] at her ⊢
      simp only [Option.some.injEq] at her
      subst her
      exact ⟨fun _ => trivial, fun _ hle => absurd h1 (not_lt.mpr hle),
        fun h0 _ => absurd h1 (by rw [h0]; norm_num)⟩
    · simp only [if_neg h1] at her ⊢
      by_cases h2 : randAt msin (hashString (conn.source ++ "-" ++ conn.destination)) 1 * 0.1 > 0
      · simp only [if_pos h2] at her ⊢
        simp only [Option.some.injEq] at her
        subst her
        exact ⟨fun hgt => absurd hgt h1, fun _ _ => trivial,
          fun h0 _ => absurd h2 (by rw [h0]; norm_num)⟩
      · by_cases h3 : conn.status = "inferred"
        · simp only [if_neg h2, if_pos h3] at her ⊢
          simp only [Option.some.injEq] at her
          subst her
          exact ⟨fun hgt => absurd hgt h1, fun hpos _ => absurd hpos h2, fun _ _ => trivial⟩
        · simp only [if_neg h2, if_neg h3] at her ⊢
          simp only [Option.some.injEq] at her
          subst her
          exact ⟨fun hgt => absurd hgt h1, fun hpos _ => absurd hpos h2,
            fun _ hinf => absurd hinf h3⟩

/-- Concrete rand source standing for `Math.sin` in witnesses: constantly 0,
so every draw is `fract(0) = 0` and the drawn errorRate is 0. -/
def msinZero : Int → ℚ := fun _ => 0

/-- Concrete connection used in witnesses. -/
def connInferredAB : ServiceConnection :=
  { source := "a", destination := "b", status := "inferred",
    protocol := "http", usesServiceMesh := false }

theorem claim_C2_enhance_status_witness :
    (enhanceConnectionWithMetrics msinZero connInferredAB).status = "healthy" := by
  have her : (enhanceConnectionWithMetrics msinZero connInferredAB).errorRate = some 0 := by
    norm_num [enhanceConnectionWithMetrics, randAt, fract, msinZero, connInferredAB]
    rfl
  have h := (claim_C2_enhance_status msinZero connInferredAB).2 (by decide) 0 her
  exact h.2.2 rfl rfl

/-- First-occurrence-order dedup with a seen-accumulator, the embedding of JS
`[...new Set(xs)]`. -/
def dedupFirstAux : List String → List String → List String
  | [], _ => []
  | x :: rest, seen =>
    if seen.contains x then dedupFirstAux rest seen
    else x :: dedupFirstAux rest (x :: seen)

/-- JS `[...new Set(xs)]` / `new Set(xs)` iteration order. -/
def dedupFirst (l : List String) : List String := dedupFirstAux l []

/-- Boolean substring scan used to embed JS `String.includes`. -/
def subOf (needle : List Char) : List Char → Bool
  | [] => needle.isEmpty
  | c :: rest => needle.isPrefixOf (c :: rest) || subOf needle rest

/-- JS `hay.includes(needle)`. -/
def strIncludes (hay needle : String) : Bool := subOf needle.toList hay.toList

/-- A raw check record from `client.agent.check.list()`; the map key is paired
with it at the call sites.  For node-level checks Consul reports
`ServiceID`/`ServiceName` as `""`, which is falsy in the JS truthiness tests. -/
structure AgentCheck where
  Name : String
  Status : String
  Output : String
  Notes : String
  ServiceID : String
  ServiceName : String
deriving DecidableEq, Repr

/-- The check record pushed by `ConsulClient.getServiceHealth` (`{id, name,
status, output, notes}`). -/
def agentEntryToCheck (e : String × AgentCheck) : HealthCheck :=
  { id := e.1, name := e.2.Name, status := e.2.Status, output := e.2.Output,
    notes := some e.2.Notes }

/-- The status update in `getServiceHealth`'s loop: a critical check forces
"critical"; a warning check raises a non-critical rollup to "warning". -/
def updateOverall (overall status : String) : String :=
  if status = "critical" then "critical"
  else if status = "warning" ∧ overall ≠ "critical" then "warning"
  else overall

/-- One iteration of `getServiceHealth`'s `for (const checkId in checks)` loop:
checks belonging to the service are collected and folded into the rollup. -/
def healthFoldStep (serviceId : String) (acc : List HealthCheck × String)
    (entry : String × AgentCheck) : List HealthCheck × String :=
  if entry.2.ServiceID = serviceId then
    (acc.1 ++ [agentEntryToCheck entry], updateOverall acc.2 entry.2.Status)
  else acc

/-- `ConsulClient.getServiceHealth` (success path; a failed or malformed
agent-check read degrades to `{status: "unknown", checks: []}` and is a
backend-failure input outside this embedding). -/
def getServiceHealth (agentChecks : List (String × AgentCheck)) (serviceId : String) :
    ServiceHealth :=
  let r := agentChecks.foldl (healthFoldStep serviceId) ([], "passing")
  { status := r.2, checks := r.1 }

/-- `ConsulClient.getAllHealthChecks` (success path): every agent check is
surfaced with its service attribution. -/
def getAllHealthChecks (agentChecks : List (String × AgentCheck)) : List HealthCheck :=
  agentChecks.map (fun e =>
    { id := e.1, name := e.2.Name, status := e.2.Status, output := e.2.Output,
      notes := some e.2.Notes, serviceId := some e.2.ServiceID,
      serviceName := some e.2.ServiceName })

/-- `HealthManager.getHealthSummary` result shape. -/
structure HealthSummary where
  total : Nat
  passing : Nat
  warning : Nat
  critical : Nat
  unknown : Nat
  failingChecksByService : List (String × Nat)
  overallStatus : String
deriving DecidableEq, Repr

/-- JS `Map.set(k, (Map.get(k) || 0) + 1)`: bump a key, keeping insertion
order. -/
def bumpCount : List (String × Nat) → String → List (String × Nat)
  | [], k => [(k, 1)]
  | (k', v) :: rest, k =>
    if k' = k then (k', v + 1) :: rest else (k', v) :: bumpCount rest k

/-- `HealthManager.getHealthSummary`: per-status counts, failing-check counts
grouped by (truthy) service name sorted descending (stable; JS `Array.sort` is
stable), and the critical > warning > passing rollup from the counts. -/
def getHealthSummary (allChecks : List HealthCheck) : HealthSummary :=
  let passingCount := (allChecks.filter (fun c => c.status = "passing")).length
  let warningCount := (allChecks.filter (fun c => c.status = "warning")).length
  let criticalCount := (allChecks.filter (fun c => c.status = "critical")).length
  let unknownCount := (allChecks.filter (fun c => c.status = "unknown")).length
  let failingMap := allChecks.foldl (fun m c =>
    if c.status = "warning" ∨ c.status = "critical" then
      match c.serviceName with
      | some s => if s = "" then m else bumpCount m s
      | none => m
    else m) []
  let failingChecksByService := failingMap.mergeSort (fun a b => decide (b.2 ≤ a.2))
  let overallStatus :=
    if criticalCount > 0 then "critical"
    else if warningCount > 0 then "warning"
    else "passing"
  { total := allChecks.length, passing := passingCount, warning := warningCount,
    critical := criticalCount, unknown := unknownCount,
    failingChecksByService := failingChecksByService, overallStatus := overallStatus }

theorem updateOverall_critical_absorbs (ss : List String) :
    ss.foldl updateOverall "critical" = "critical" := by
  induction ss with
  | nil => rfl
  | cons s rest ih => simpa [updateOverall] using ih

theorem updateOverall_from_warning (ss : List String) :
    ss.foldl updateOverall "warning" =
      (if ss.any (fun s => s = "critical") then "critical" else "warning") := by
  induction ss with
  | nil => rfl
  | cons s rest ih =>
    by_cases h : s = "critical"
    · simp [updateOverall, h, updateOverall_critical_absorbs]
    · by_cases h2 : s = "warning" <;> simp [updateOverall, h, h2, ih]

theorem updateOverall_from_passing (ss : List String) :
    ss.foldl updateOverall "passing" =
      (if ss.any (fun s => s = "critical") then "critical"
       else if ss.any (fun s => s = "warning") then "warning" else "passing") := by
  induction ss with
  | nil => rfl
  | cons s rest ih =>
    by_cases h : s = "critical"
    · simp [updateOverall, h, updateOverall_critical_absorbs]
    · by_cases h2 : s = "warning"
      · simp [updateOverall, h, h2, updateOverall_from_warning]
      · simp [updateOverall, h, h2, ih]

theorem foldl_healthFoldStep (serviceId : String) (l : List (String × AgentCheck))
    (acc : List HealthCheck) (ov : String) :
    l.foldl (healthFoldStep serviceId) (acc, ov) =
      (acc ++ (l.filter (fun e => e.2.ServiceID = serviceId)).map agentEntryToCheck,
       ((l.filter (fun e => e.2.ServiceID = serviceId)).map (fun e => e.2.Status)).foldl
         updateOverall ov) := by
  induction l generalizing acc ov with
  | nil => simp
  | cons e rest ih =>
    by_cases h : e.2.ServiceID = serviceId
    · simp [healthFoldStep, h, ih]
    · simp [healthFoldStep, h, ih]

theorem length_filter_pos_iff_any {α : Type} (p : α → Bool) (l : List α) :
    0 < (l.filter p).length ↔ l.any p = true := by
  induction l with
  | nil => simp
  | cons x xs ih => by_cases h : p x <;> simp [h, ih]

/-- C1: the per-service health rollup `getServiceHealth(...)` is "critical" if
any of the service's checks is critical, else "warning" if any is warning,
else "passing" — so checks with any other status, "unknown" included, never
escalate it; and `getHealthSummary(...).overallStatus` applies the same
critical > warning > passing precedence over all checks. -/
theorem claim_C1_health_rollup (agentChecks : List (String × AgentCheck))
    (serviceId : String) (allChecks : List HealthCheck) :
    (getServiceHealth agentChecks serviceId).status =
      (if ((getServiceHealth agentChecks serviceId).checks.map HealthCheck.status).any
            (fun s => s = "critical") then "critical"
       else if ((getServiceHealth agentChecks serviceId).checks.map HealthCheck.status).any
            (fun s => s = "warning") then "warning"
       else "passing") ∧
    (getHealthSummary allChecks).overallStatus =
      (if (allChecks.map HealthCheck.status).any (fun s => s = "critical") then "critical"
       else if (allChecks.map HealthCheck.status).any (fun s => s = "warning") then "warning"
       else "passing") := by
  constructor
  · have hkey : (fun e : String × AgentCheck => (agentEntryToCheck e).status) =
        (fun e : String × AgentCheck => e.2.Status) := rfl
    simp only [getServiceHealth, foldl_healthFoldStep, List.nil_append]
    rw [updateOverall_from_passing]
    simp only [List.map_map, Function.comp_def, agentEntryToCheck]
  · simp only [getHealthSummary]
    by_cases hc : (allChecks.map HealthCheck.status).any (fun s => s = "critical") = true
    · have h1 : 0 < (allChecks.filter (fun c => c.status = "critical")).length := by
        rw [length_filter_pos_iff_any]
        simpa [List.any_map, Function.comp_def] using hc
      simp [h1, hc]
    · have h1 : ¬ 0 < (allChecks.filter (fun c => c.status = "critical")).length := by
        rw [length_filter_pos_iff_any]
        simpa [List.any_map, Function.comp_def] using hc
      by_cases hw : (allChecks.map HealthCheck.status).any (fun s => s = "warning") = true
      · have h2 : 0 < (allChecks.filter (fun c => c.status = "warning")).length := by
          rw [length_filter_pos_iff_any]
          simpa [List.any_map, Function.comp_def] using hw
        simp [h1, h2, hc, hw]
      · have h2 : ¬ 0 < (allChecks.filter (fun c => c.status = "warning")).length := by
          rw [length_filter_pos_iff_any]
          simpa [List.any_map, Function.comp_def] using hw
        simp [h1, h2, hc, hw]

/-- JS `s.split(sep)` for a single-char separator, on char lists:
`"".split(",") = [""]`, separators delimit possibly-empty fields. -/
def splitOnCharList (sep : Char) : List Char → List (List Char)
  | [] => [[]]
  | c :: rest =>
    let r := splitOnCharList sep rest
    if c = sep then [] :: r
    else (c :: r.headD []) :: r.tail

/-- JS `s.split(",")`. -/
def jsSplitComma (s : String) : List String :=
  (splitOnCharList ',' s.toList).map String.mk

/-- Whitespace stripped by JS `String.trim` as it can occur in the embedded
data (JS also strips further Unicode space characters). -/
def isJsSpace (c : Char) : Bool := c = ' ' || c = '\t' || c = '\n' || c = '\r'

/-- JS `s.trim()`. -/
def jsTrim (s : String) : String :=
  String.mk (((s.toList.dropWhile isJsSpace).reverse.dropWhile isJsSpace).reverse)

/-- A mesh intention record from `connect.intentions.list()`. -/
structure Intention where
  SourceName : String
  DestinationName : String
  Action : String
deriving DecidableEq, Repr

/-- Tier-1 mapping of `getServiceConnections`: one connection per intention,
status "allowed" for action allow and "blocked" otherwise, protocol "tcp",
flagged as service mesh. -/
def intentionToConnection (i : Intention) : ServiceConnection :=
  { source := i.SourceName, destination := i.DestinationName,
    status := if i.Action = "allow" then "allowed" else "blocked",
    protocol := "tcp", usesServiceMesh := true, intentionAction := some i.Action }

/-- A raw node record from `catalog.service.nodes(name)`. -/
structure CatalogNode where
  ServiceID : String
  ServiceName : String
  ServiceAddress : String
  Address : String
  ServicePort : Int
  Node : String
  ServiceTags : List String
  ServiceMeta : List (String × String)
deriving DecidableEq, Repr

/-- `ConsulClient.getServices` (success path): iterate the catalog's service
names in map order, skip the "consul" entry with `continue`, and build one
record per node with the per-service health rollup attached.
`ServiceAddress || Address` falls back on the falsy empty string.  A failed
or malformed catalog read degrades to `[]` and is outside this embedding. -/
def getServices (catalog : List (String × List CatalogNode))
    (agentChecks : List (String × AgentCheck)) : List ConsulService :=
  catalog.flatMap (fun entry =>
    if entry.1 = "consul" then []
    else entry.2.map (fun service =>
      { id := service.ServiceID, name := service.ServiceName,
        address := if service.ServiceAddress = "" then service.Address
                   else service.ServiceAddress,
        port := toString service.ServicePort,
        node := service.Node, tags := service.ServiceTags, meta := service.ServiceMeta,
        health := getServiceHealth agentChecks service.ServiceID }))

/-- Protocol of metadata-declared edges: `source.meta?.protocol || 'http'`
(absent key or falsy empty string falls back to "http"). -/
def metaProtocol (meta : List (String × String)) : String :=
  match meta.lookup "protocol" with
  | some p => if p = "" then "http" else p
  | none => "http"

/-- `source.meta?.upstream_services?.split(',') || []`. -/
def upstreamNames (meta : List (String × String)) : List String :=
  match meta.lookup "upstream_services" with
  | some s => jsSplitComma s
  | none => []

/-- Metadata-declared dependency edges of one source service (heuristic
fallback, step a): one inferred edge per service whose name equals a trimmed
declared upstream name. -/
def upstreamEdges (services : List ConsulService) (source : ConsulService) :
    List ServiceConnection :=
  (upstreamNames source.meta).flatMap (fun upstreamName =>
    (services.filter (fun s => s.name = jsTrim upstreamName)).map (fun target =>
      { source := source.name, destination := target.name, status := "inferred",
        protocol := metaProtocol source.meta, usesServiceMesh := false }))

/-- The six substring-containment rules of the naming-convention heuristic,
written as the source's single disjunction. -/
def namingRuleMatches (sourceName targetName : String) : Bool :=
  (strIncludes sourceName "api" && strIncludes targetName "service") ||
  (strIncludes sourceName "web" && strIncludes targetName "api") ||
  (strIncludes sourceName "service" && strIncludes targetName "db") ||
  (strIncludes sourceName "frontend" && strIncludes targetName "api") ||
  (strIncludes sourceName "api" && strIncludes targetName "auth") ||
  (strIncludes sourceName "api" && strIncludes targetName "payment")

/-- Naming-convention heuristic edges contributed by one ordered (source,
target) pair: pairs with equal ids are skipped, and the six rules guard a
single push. -/
def namingEdges (source target : ConsulService) : List ServiceConnection :=
  if source.id = target.id then []
  else if namingRuleMatches source.name target.name then
    [{ source := source.name, destination := target.name, status := "inferred",
       protocol := "http", usesServiceMesh := false }]
  else []

/-- Heuristic fallback tier of `getServiceConnections`: for each source
service, metadata-declared edges, then naming-convention edges over all
targets. -/
def fallbackConnections (services : List ConsulService) : List ServiceConnection :=
  services.flatMap (fun source =>
    upstreamEdges services source ++
      services.flatMap (fun target => namingEdges source target))

/-- `ConsulClient.getServiceConnections`: tier 1 maps intentions to
connections (a failed intentions query is the `none` input; the error is
caught and leaves tier 1 empty); the heuristic fallback runs only when tier 1
produced zero connections; every resulting connection then passes through
metric synthesis.  `services` is the value of the `getServices` read made by
the fallback. -/
def getServiceConnections (intentions : Option (List Intention))
    (services : List ConsulService) (msin : Int → ℚ) : List ServiceConnection :=
  let tier1 := match intentions with
    | some l => l.map intentionToConnection
    | none => []
  let connections := if tier1.isEmpty then fallbackConnections services else tier1
  connections.map (enhanceConnectionWithMetrics msin)

theorem enhance_source (msin : Int → ℚ) (c : ServiceConnection) :
    (enhanceConnectionWithMetrics msin c).source = c.source := by
  simp only [enhanceConnectionWithMetrics]
  repeat first | rfl | split

theorem enhance_destination (msin : Int → ℚ) (c : ServiceConnection) :
    (enhanceConnectionWithMetrics msin c).destination = c.destination := by
  simp only [enhanceConnectionWithMetrics]
  repeat first | rfl | split

theorem enhance_protocol (msin : Int → ℚ) (c : ServiceConnection) :
    (enhanceConnectionWithMetrics msin c).protocol = c.protocol := by
  simp only [enhanceConnectionWithMetrics]
  repeat first | rfl | split

theorem enhance_usesServiceMesh (msin : Int → ℚ) (c : ServiceConnection) :
    (enhanceConnectionWithMetrics msin c).usesServiceMesh = c.usesServiceMesh := by
  simp only [enhanceConnectionWithMetrics]
  repeat first | rfl | split

/-- C3: two-tier inference, the authoritative tier winning globally.  A
non-empty intentions read yields exactly the intention-derived connections
(through metric synthesis) — the fallback contributes nothing — where each
intention derives status "allowed"/"blocked" from its action, protocol "tcp"
and the mesh flag, all returned edges keeping protocol "tcp" and
usesServiceMesh; and a failed intentions read (`none`) produces exactly what
an empty read produces: the error is swallowed, never propagated. -/
theorem claim_C3_two_tier (ints : List Intention) (services : List ConsulService)
    (msin : Int → ℚ) :
    (ints ≠ [] →
      getServiceConnections (some ints) services msin =
        ints.map (fun i => enhanceConnectionWithMetrics msin (intentionToConnection i)) ∧
      (∀ i : Intention,
        (intentionToConnection i).status =
          (if i.Action = "allow" then "allowed" else "blocked") ∧
        (intentionToConnection i).protocol = "tcp" ∧
        (intentionToConnection i).usesServiceMesh = true) ∧
      ∀ c ∈ getServiceConnections (some ints) services msin,
        c.protocol = "tcp" ∧ c.usesServiceMesh = true) ∧
    getServiceConnections none services msin =
      getServiceConnections (some []) services msin := by
  constructor
  · intro hne
    have htier : (ints.map intentionToConnection).isEmpty = false := by
      cases ints with
      | nil => exact absurd rfl hne
      | cons a as => rfl
    refine ⟨?_, fun i => ⟨rfl, rfl, rfl⟩, ?_⟩
    · simp [getServiceConnections, htier, List.map_map, Function.comp_def]
    · intro c hc
      simp only [getServiceConnections, htier, Bool.false_eq_true, if_false] at hc
      rcases List.mem_map.mp hc with ⟨c', hc', rfl⟩
      rcases List.mem_map.mp hc' with ⟨i, _, rfl⟩
      rw [enhance_protocol, enhance_usesServiceMesh]
      exact ⟨rfl, rfl⟩
  · rfl

/-- Concrete intention used by the C3 witness. -/
def intAllowAB : Intention := { SourceName := "a", DestinationName := "b", Action := "allow" }

theorem claim_C3_two_tier_witness :
    getServiceConnections (some [intAllowAB]) [] msinZero =
      [enhanceConnectionWithMetrics msinZero (intentionToConnection intAllowAB)] := by
  exact ((claim_C3_two_tier [intAllowAB] [] msinZero).1 (by decide)).1

theorem length_filter_endpoints_map_enhance (msin : Int → ℚ)
    (l : List ServiceConnection) (s d : String) :
    ((l.map (enhanceConnectionWithMetrics msin)).filter
        (fun c => c.source = s && c.destination = d)).length =
      (l.filter (fun c => c.source = s && c.destination = d)).length := by
  rw [List.filter_map, List.length_map]
  have hp : ((fun c => decide (c.source = s) && decide (c.destination = d)) ∘
        enhanceConnectionWithMetrics msin) =
      (fun c : ServiceConnection => decide (c.source = s) && decide (c.destination = d)) := by
    funext c
    simp [Function.comp_def, enhance_source, enhance_destination]
  rw [hp]

/-- Concrete service whose name matches two rules as a source against "api". -/
def svcWebFrontend : ConsulService :=
  { id := "wf-1", name := "web-frontend", address := "10.0.0.1", port := "80",
    node := "n1", tags := [], meta := [],
    health := { status := "passing", checks := [] } }

/-- Concrete service named "api". -/
def svcApi : ConsulService :=
  { id := "api-1", name := "api", address := "10.0.0.2", port := "80",
    node := "n1", tags := [], meta := [],
    health := { status := "passing", checks := [] } }

/-- C4 counterexample: with services web-frontend and api and an empty
intentions tier, the ordered pair (web-frontend, api) matches two of the six
naming rules — (web,api) and (frontend,api) — yet exactly one edge is emitted
for the pair, not one per matching rule: the six rules are disjuncts of a
single condition guarding a single push. -/
theorem claim_C4_counterexample :
    ((getServiceConnections (some []) [svcWebFrontend, svcApi] msinZero).filter
        (fun c => c.source = "web-frontend" && c.destination = "api")).length = 1 ∧
    ([strIncludes "web-frontend" "api" && strIncludes "api" "service",
      strIncludes "web-frontend" "web" && strIncludes "api" "api",
      strIncludes "web-frontend" "service" && strIncludes "api" "db",
      strIncludes "web-frontend" "frontend" && strIncludes "api" "api",
      strIncludes "web-frontend" "api" && strIncludes "api" "auth",
      strIncludes "web-frontend" "api" && strIncludes "api" "payment"].count true) = 2 ∧
    ((getServiceConnections (some []) [svcWebFrontend, svcApi] msinZero).filter
        (fun c => c.source = "web-frontend" && c.destination = "api")).length ≠
      ([strIncludes "web-frontend" "api" && strIncludes "api" "service",
        strIncludes "web-frontend" "web" && strIncludes "api" "api",
        strIncludes "web-frontend" "service" && strIncludes "api" "db",
        strIncludes "web-frontend" "frontend" && strIncludes "api" "api",
        strIncludes "web-frontend" "api" && strIncludes "api" "auth",
        strIncludes "web-frontend" "api" && strIncludes "api" "payment"].count true) := by
  have hlen : ((getServiceConnections (some []) [svcWebFrontend, svcApi] msinZero).filter
      (fun c => c.source = "web-frontend" && c.destination = "api")).length = 1 := by
    show (((fallbackConnections [svcWebFrontend, svcApi]).map
        (enhanceConnectionWithMetrics msinZero)).filter
        (fun c => c.source = "web-frontend" && c.destination = "api")).length = 1
    rw [length_filter_endpoints_map_enhance]
    decide
  refine ⟨hlen, by decide, ?_⟩
  rw [hlen]
  decide

/-- C4 amended: for every ordered pair of distinct services the
naming-convention heuristic contributes at most one inferred edge, and it
contributes exactly one precisely when the pair matches at least one of the
six substring-containment rules (applied to source.name/target.name as a
single disjunction) — multiple matching rules do not add separate edges. -/
theorem claim_C4_amended (source target : ConsulService) :
    (namingEdges source target).length ≤ 1 ∧
    ((namingEdges source target).length = 1 ↔
      source.id ≠ target.id ∧ namingRuleMatches source.name target.name = true) := by
  unfold namingEdges
  by_cases h1 : source.id = target.id
  · simp [h1]
  · by_cases h2 : namingRuleMatches source.name target.name <;> simp [h1, h2]

/-- Concrete service "app" declaring upstream services "db,cache". -/
def svcApp : ConsulService :=
  { id := "app-1", name := "app", address := "10.0.0.3", port := "80",
    node := "n1", tags := [], meta := [("upstream_services", "db,cache")],
    health := { status := "passing", checks := [] } }

/-- Concrete service "db". -/
def svcDb : ConsulService :=
  { id := "db-1", name := "db", address := "10.0.0.4", port := "5432",
    node := "n1", tags := [], meta := [],
    health := { status := "passing", checks := [] } }

/-- Concrete service "cache". -/
def svcCache : ConsulService :=
  { id := "cache-1", name := "cache", address := "10.0.0.5", port := "6379",
    node := "n1", tags := [], meta := [],
    health := { status := "passing", checks := [] } }

/-- C5: with an empty intentions tier and services app (metadata
`upstream_services = "db,cache"`), db and cache, the connection list is
exactly the two metadata-declared inferred edges app→db and app→cache, each
passed through metric synthesis — for every rand source. -/
theorem claim_C5_upstream_metadata (msin : Int → ℚ) :
    getServiceConnections (some []) [svcApp, svcDb, svcCache] msin =
      [enhanceConnectionWithMetrics msin
        { source := "app", destination := "db", status := "inferred",
          protocol := "http", usesServiceMesh := false },
       enhanceConnectionWithMetrics msin
        { source := "app", destination := "cache", status := "inferred",
          protocol := "http", usesServiceMesh := false }] := by
  rfl

theorem enhance_latency_of_ne (msin : Int → ℚ) (c : ServiceConnection)
    (h : c.status ≠ "blocked") :
    (enhanceConnectionWithMetrics msin c).latency =
      some (⌊randAt msin (hashString (c.source ++ "-" ++ c.destination)) 0 * 450⌋ + 50) := by
  simp only [enhanceConnectionWithMetrics, if_neg h]
  repeat first | rfl | split

theorem enhance_errorRate_of_ne (msin : Int → ℚ) (c : ServiceConnection)
    (h : c.status ≠ "blocked") :
    (enhanceConnectionWithMetrics msin c).errorRate =
      some (randAt msin (hashString (c.source ++ "-" ++ c.destination)) 1 * 0.1) := by
  simp only [enhanceConnectionWithMetrics, if_neg h]
  repeat first | rfl | split

theorem enhance_requestVolume_of_ne (msin : Int → ℚ) (c : ServiceConnection)
    (h : c.status ≠ "blocked") :
    (enhanceConnectionWithMetrics msin c).requestVolume =
      some (⌊randAt msin (hashString (c.source ++ "-" ++ c.destination)) 2 * 990⌋ + 10) := by
  simp only [enhanceConnectionWithMetrics, if_neg h]
  repeat first | rfl | split

/-- C6: pseudo-metric synthesis is deterministic.  The synthesized latency,
errorRate and requestVolume depend only on the (source, destination) pair —
two synthesis runs over connections with the same pair yield identical
values — and per-service metrics are a pure function of the service name. -/
theorem claim_C6_deterministic_metrics (msin : Int → ℚ) (c1 c2 : ServiceConnection)
    (hs : c1.source = c2.source) (hd : c1.destination = c2.destination)
    (h1 : c1.status ≠ "blocked") (h2 : c2.status ≠ "blocked") :
    (enhanceConnectionWithMetrics msin c1).latency =
      (enhanceConnectionWithMetrics msin c2).latency ∧
    (enhanceConnectionWithMetrics msin c1).errorRate =
      (enhanceConnectionWithMetrics msin c2).errorRate ∧
    (enhanceConnectionWithMetrics msin c1).requestVolume =
      (enhanceConnectionWithMetrics msin c2).requestVolume ∧
    ∀ n1 n2 : String, n1 = n2 → getServiceMetrics msin n1 = getServiceMetrics msin n2 := by
  refine ⟨?_, ?_, ?_, fun n1 n2 h => by rw [h]⟩
  · rw [enhance_latency_of_ne msin c1 h1, enhance_latency_of_ne msin c2 h2, hs, hd]
  · rw [enhance_errorRate_of_ne msin c1 h1, enhance_errorRate_of_ne msin c2 h2, hs, hd]
  · rw [enhance_requestVolume_of_ne msin c1 h1, enhance_requestVolume_of_ne msin c2 h2, hs, hd]

/-- Second concrete connection on the pair (a, b), differing from
`connInferredAB` in protocol and status. -/
def connAllowedAB : ServiceConnection :=
  { source := "a", destination := "b", status := "allowed",
    protocol := "grpc", usesServiceMesh := true }

theorem claim_C6_deterministic_metrics_witness :
    (enhanceConnectionWithMetrics msinZero connInferredAB).latency =
      (enhanceConnectionWithMetrics msinZero connAllowedAB).latency ∧
    (enhanceConnectionWithMetrics msinZero connInferredAB).errorRate =
      (enhanceConnectionWithMetrics msinZero connAllowedAB).errorRate ∧
    (enhanceConnectionWithMetrics msinZero connInferredAB).requestVolume =
      (enhanceConnectionWithMetrics msinZero connAllowedAB).requestVolume ∧
    ∀ n1 n2 : String, n1 = n2 →
      getServiceMetrics msinZero n1 = getServiceMetrics msinZero n2 :=
  claim_C6_deterministic_metrics msinZero connInferredAB connAllowedAB rfl rfl
    (by decide) (by decide)

/-- C10: services read through `getServices` never include a record from the
catalog entry named "consul" — with the Consul well-formedness fact that each
node record's `ServiceName` equals its catalog key, no returned record is
named "consul", so the agent's own entry never reaches topology, inference,
analysis or diagrams (all of which consume this list). -/
theorem claim_C10_consul_filtered (catalog : List (String × List CatalogNode))
    (agentChecks : List (String × AgentCheck))
    (hwf : ∀ e ∈ catalog, ∀ nd ∈ e.2, nd.ServiceName = e.1) :
    ∀ svc ∈ getServices catalog agentChecks, svc.name ≠ "consul" := by
  intro svc hsvc
  rcases List.mem_flatMap.mp hsvc with ⟨e, he, hmem⟩
  by_cases hc : e.1 = "consul"
  · rw [if_pos hc] at hmem
    exact absurd hmem (List.not_mem_nil _)
  · rw [if_neg hc] at hmem
    rcases List.mem_map.mp hmem with ⟨nd, hnd, rfl⟩
    simpa [hwf e he nd hnd] using hc

/-- Concrete catalog for the C10 witness: the agent's own "consul" entry plus
an "api" service. -/
def catalogWithConsul : List (String × List CatalogNode) :=
  [("consul",
    [{ ServiceID := "consul", ServiceName := "consul", ServiceAddress := "",
       Address := "10.0.0.9", ServicePort := 8300, Node := "n1",
       ServiceTags := [], ServiceMeta := [] }]),
   ("api",
    [{ ServiceID := "api-1", ServiceName := "api", ServiceAddress := "10.0.0.2",
       Address := "10.0.0.2", ServicePort := 9090, Node := "n1",
       ServiceTags := [], ServiceMeta := [] }])]

theorem claim_C10_consul_filtered_witness :
    "consul" ∉ (getServices catalogWithConsul []).map ConsulService.name := by
  intro h
  rcases List.mem_map.mp h with ⟨svc, hsvc, hname⟩
  exact claim_C10_consul_filtered catalogWithConsul [] (by decide) svc hsvc hname

/-- Result shape of `ServiceAnalyzer.analyzeService` (interface
`ServiceAnalysis`). -/
structure ServiceAnalysis where
  issues : List String
  recommendations : List String
deriving DecidableEq, Repr

/-- Connection-failure test reused across analyzers: status is one of
degraded, failing, blocked. -/
def isFailingConn (c : ServiceConnection) : Bool :=
  c.status = "degraded" || c.status = "failing" || c.status = "blocked"

/-- Summary flags built by `ServiceManager.enrichServiceDetails`. -/
structure ServiceSummary where
  healthStatus : String
  checkCount : Nat
  incomingConnectionCount : Nat
  outgoingConnectionCount : Nat
  hasFailingConnections : Bool
  hasFailingHealthChecks : Bool
deriving DecidableEq, Repr

/-- `ServiceDetails`: a service with its incoming/outgoing connections and
summary flags. -/
structure ServiceDetails where
  base : ConsulService
  incoming : List ServiceConnection
  outgoing : List ServiceConnection
  summary : ServiceSummary
deriving DecidableEq, Repr

/-- `ServiceManager.enrichServiceDetails`. -/
def enrichServiceDetails (service : ConsulService)
    (connections : List ServiceConnection) : ServiceDetails :=
  let incomingConnections := connections.filter (fun c => c.destination = service.name)
  let outgoingConnections := connections.filter (fun c => c.source = service.name)
  { base := service, incoming := incomingConnections, outgoing := outgoingConnections,
    summary := {
      healthStatus := service.health.status,
      checkCount := service.health.checks.length,
      incomingConnectionCount := incomingConnections.length,
      outgoingConnectionCount := outgoingConnections.length,
      hasFailingConnections :=
        incomingConnections.any isFailingConn || outgoingConnections.any isFailingConn,
      hasFailingHealthChecks :=
        service.health.checks.any (fun c => c.status = "warning" || c.status = "critical") } }

/-- `ServiceManager.getServiceByName` over the two registry reads it makes. -/
def getServiceByName (services : List ConsulService)
    (connections : List ServiceConnection) (serviceName : String) :
    Option ServiceDetails :=
  match services.find? (fun s => s.name = serviceName) with
  | none => none
  | some s => some (enrichServiceDetails s connections)

/-- Scan for three consecutive characters matching `[45]\d\d`. -/
def has45dd : List Char → Bool
  | a :: b :: c :: rest =>
    ((a = '4' || a = '5') && b.isDigit && c.isDigit) || has45dd (b :: c :: rest)
  | _ => false

/-- The suffix after the first occurrence of `needle`, if any. -/
def afterSub (needle : List Char) : List Char → Option (List Char)
  | [] => if needle.isEmpty then some [] else none
  | c :: rest =>
    if needle.isPrefixOf (c :: rest) then some ((c :: rest).drop needle.length)
    else afterSub needle rest

/-- JS `/HTTP.*[45]\d\d/.test(s)`: some occurrence of "HTTP" followed anywhere
later by a 4xx/5xx code — equivalently, the code pattern occurs after the
first "HTTP" occurrence. -/
def httpErrTest (s : String) : Bool :=
  match afterSub "HTTP".toList s.toList with
  | some post => has45dd post
  | none => false

/-- JS `s.toLowerCase()` restricted to the ASCII case mapping. -/
def jsToLower (s : String) : String := String.mk (s.toList.map Char.toLower)

/-- JS `x.toFixed(1)` for the nonnegative rationals produced here: round to
one decimal place and print "i.d". -/
def toFixed1 (q : ℚ) : String :=
  let scaled : Int := ⌊q * 10 + 1 / 2⌋
  toString (scaled / 10) ++ "." ++ toString (scaled % 10)

/-- `ServiceAnalyzer.analyzeService`: throws NotFound (`Except.error`) for an
unknown service name; otherwise accumulates issues and recommendations from
failing health checks, failing incoming/outgoing connections, blocked mesh
connections and metric thresholds in that order, appends the sentinel when no
issue was found, and deduplicates recommendations (JS Set).  The best-effort
metrics fetch is the pure `getServiceMetrics` and cannot fail here; in the
source a failure of it is silently skipped. -/
def analyzeService (services : List ConsulService)
    (connections : List ServiceConnection) (msin : Int → ℚ) (serviceName : String) :
    Except String ServiceAnalysis :=
  match getServiceByName services connections serviceName with
  | none => Except.error ("Service " ++ serviceName ++ " not found")
  | some service =>
    let failingChecks := service.base.health.checks.filter
      (fun c => c.status = "warning" || c.status = "critical")
    let checkOutputs := failingChecks.map (fun c => jsToLower c.output)
    let healthIssues := if service.summary.hasFailingHealthChecks then
        failingChecks.map (fun c =>
          "Health check \"" ++ c.name ++ "\" is " ++ c.status ++ ": " ++ c.output)
      else []
    let healthRecs := if service.summary.hasFailingHealthChecks then
        (if checkOutputs.any (fun o => strIncludes o "timeout") then
          ["Check for slow response times or overloaded resources"] else []) ++
        (if checkOutputs.any (fun o => strIncludes o "connection refused") then
          ["Verify the service is running and accepting connections"] else []) ++
        (if checkOutputs.any (fun o => strIncludes o "disk" || strIncludes o "storage") then
          ["Increase available disk space or clean up logs/temporary files"] else []) ++
        (if checkOutputs.any (fun o => httpErrTest o) then
          ["Investigate HTTP errors in service logs"] else [])
      else []
    let failingIncoming := service.incoming.filter isFailingConn
    let incomingIssues := if failingIncoming.length > 0 then
        [toString failingIncoming.length ++ " incoming connections are experiencing issues"]
      else []
    let incomingSources := dedupFirst (failingIncoming.map (fun c => c.source))
    let incomingRecs := if failingIncoming.length > 0 && incomingSources.length > 0 then
        ["Check connectivity from services: " ++ String.intercalate ", " incomingSources]
      else []
    let failingOutgoing := service.outgoing.filter isFailingConn
    let outgoingIssues := if failingOutgoing.length > 0 then
        [toString failingOutgoing.length ++ " outgoing connections are experiencing issues"]
      else []
    let outgoingDests := dedupFirst (failingOutgoing.map (fun c => c.destination))
    let outgoingRecs := if failingOutgoing.length > 0 && outgoingDests.length > 0 then
        ["Check connectivity to services: " ++ String.intercalate ", " outgoingDests]
      else []
    let meshConnections := (service.incoming ++ service.outgoing).filter
      (fun c => c.usesServiceMesh)
    let blockedConnections := meshConnections.filter (fun c => c.status = "blocked")
    let meshIssues := if meshConnections.length > 0 && blockedConnections.length > 0 then
        [toString blockedConnections.length ++
          " connections are blocked by service mesh intentions"]
      else []
    let meshRecs := if meshConnections.length > 0 && blockedConnections.length > 0 then
        ["Review service mesh intentions to ensure they match expected traffic patterns"]
      else []
    let metrics := getServiceMetrics msin serviceName
    let metricIssues :=
      (if metrics.errorRate > 0.05 then
        ["High error rate: " ++ toFixed1 (metrics.errorRate * 100) ++ "%"] else []) ++
      (if metrics.cpuUsage > 0.8 then
        ["High CPU usage: " ++ toFixed1 (metrics.cpuUsage * 100) ++ "%"] else []) ++
      (if (metrics.memoryUsed : ℚ) / (metrics.memoryTotal : ℚ) > 0.9 then
        ["High memory usage: " ++ toString metrics.memoryUsed ++ "/" ++
          toString metrics.memoryTotal ++ " MB"] else []) ++
      (if metrics.p99 > 500 then
        ["Slow response times (p99): " ++ toString metrics.p99 ++ "ms"] else [])
    let metricRecs :=
      (if metrics.errorRate > 0.05 then ["Investigate application logs for errors"] else []) ++
      (if metrics.cpuUsage > 0.8 then
        ["Consider scaling horizontally or optimizing resource usage"] else []) ++
      (if (metrics.memoryUsed : ℚ) / (metrics.memoryTotal : ℚ) > 0.9 then
        ["Check for memory leaks or increase memory allocation"] else []) ++
      (if metrics.p99 > 500 then ["Optimize critical paths or add caching"] else [])
    let issues := healthIssues ++ incomingIssues ++ outgoingIssues ++ meshIssues ++ metricIssues
    let recs := healthRecs ++ incomingRecs ++ outgoingRecs ++ meshRecs ++ metricRecs
    let issuesFinal := if issues.length = 0 then ["No issues detected"] else issues
    let recsFinal :=
      if issues.length = 0 then recs ++ ["Continue monitoring service health"] else recs
    Except.ok { issues := issuesFinal, recommendations := dedupFirst recsFinal }

/-- C7: analysis of a name matching no registered service fails with the
NotFound error, surfaced to the caller (never swallowed or degraded to a
default result). -/
theorem claim_C7_notfound (services : List ConsulService)
    (connections : List ServiceConnection) (msin : Int → ℚ) (serviceName : String)
    (h : ∀ s ∈ services, s.name ≠ serviceName) :
    analyzeService services connections msin serviceName =
      Except.error ("Service " ++ serviceName ++ " not found") := by
  have hfind : services.find? (fun s => s.name = serviceName) = none := by
    rw [List.find?_eq_none]
    intro s hs
    simpa using h s hs
  simp [analyzeService, getServiceByName, hfind]

theorem claim_C7_notfound_witness :
    analyzeService [svcApp, svcDb] [] msinZero "nonexistent" =
      Except.error "Service nonexistent not found" :=
  claim_C7_notfound [svcApp, svcDb] [] msinZero "nonexistent" (by decide)

/-- JS `Map.set(k, v)`: replace the value at an existing key in place, else
append a new entry. -/
def setEntry : List (String × List String) → String → List String →
    List (String × List String)
  | [], k, v => [(k, v)]
  | e :: rest, k, v =>
    if e.1 = k then (k, v) :: rest else e :: setEntry rest k v

/-- `serviceConnectivityMap.get(conn.source)` + `Set.add(conn.destination)`:
add keeps insertion order; a source missing from the map is ignored. -/
def addDest : List (String × List String) → String → String →
    List (String × List String)
  | [], _, _ => []
  | e :: rest, src, dst =>
    if e.1 = src then (e.1, if e.2.contains dst then e.2 else e.2 ++ [dst]) :: rest
    else e :: addDest rest src dst

/-- The `serviceConnectivityMap` of `analyzeServiceMesh`: every known service
(in map insertion order) to its outgoing destination set. -/
def connectivityMap (services : List ConsulService)
    (connections : List ServiceConnection) : List (String × List String) :=
  connections.foldl (fun m c => addDest m c.source c.destination)
    (services.foldl (fun m s => setEntry m s.name []) [])

/-- Isolated services: empty own outgoing set, and not a destination in any
entry's outgoing set (the source scans all values, its own included). -/
def isolatedServicesOf (m : List (String × List String)) : List String :=
  (m.filter (fun e => e.2.isEmpty && !(m.any (fun e2 => e2.2.contains e.1)))).map
    (fun e => e.1)

/-- JS `Map.set(k, (Map.get(k) || 0) + d)`. -/
def bumpBy : List (String × Nat) → String → Nat → List (String × Nat)
  | [], k, d => [(k, d)]
  | e :: rest, k, d =>
    if e.1 = k then (e.1, e.2 + d) :: rest else e :: bumpBy rest k d

/-- The `connectionCounts` map: per service its outgoing-set size, plus one
for each time it appears as a destination. -/
def connectionCounts (m : List (String × List String)) : List (String × Nat) :=
  m.foldl (fun counts e =>
    e.2.foldl (fun cs t => bumpBy cs t 1) (bumpBy counts e.1 e.2.length)) []

/-- Result of `ServiceAnalyzer.analyzeServiceMesh`. -/
structure MeshAnalysis where
  summary : String
  issues : List String
  recommendations : List String
deriving DecidableEq, Repr

/-- `ServiceAnalyzer.analyzeServiceMesh` over the three registry reads it
makes: health-count issues, failing-connection issues (listing of distinct
source/destination pairs capped at the first 3 with "and others"), isolated
services, top-3 most-connected services filtered to degree > 2 (JS sort is
stable, hence `mergeSort`), a count summary sentence, and the "no issues"
sentinel exactly when nothing was pushed.  Recommendations are deduplicated.
The pair separator is the source's literal mojibake sequence
U+00E2 U+2020 U+2019. -/
def analyzeServiceMesh (services : List ConsulService)
    (connections : List ServiceConnection) (allChecks : List HealthCheck) :
    MeshAnalysis :=
  let healthSummary := getHealthSummary allChecks
  let criticalIssues := if healthSummary.critical > 0 then
      [Nat.repr healthSummary.critical ++ " services have critical health checks"] else []
  let warningIssues := if healthSummary.warning > 0 then
      [Nat.repr healthSummary.warning ++ " services have warning health checks"] else []
  let failingConnections := connections.filter isFailingConn
  let pairs := dedupFirst (failingConnections.map
    (fun c => c.source ++ " \u00E2\u2020\u2019 " ++ c.destination))
  let failingIssues := if failingConnections.length > 0 then
      [Nat.repr failingConnections.length ++ " connections are experiencing issues"] ++
      (if pairs.length > 3 then
        ["Key problematic connections: " ++ String.intercalate ", " (pairs.take 3) ++
          " and others"]
       else if pairs.length > 0 then
        ["Problematic connections: " ++ String.intercalate ", " pairs]
       else [])
    else []
  let m := connectivityMap services connections
  let isolated := isolatedServicesOf m
  let isolatedIssues := if isolated.length > 0 then
      [Nat.repr isolated.length ++ " services appear to be isolated: " ++
        String.intercalate ", " isolated] else []
  let isolatedRecs := if isolated.length > 0 then
      ["Review isolated services to determine if they should be connected to the mesh"]
    else []
  let mostConnected := ((((connectionCounts m).mergeSort
      (fun a b => decide (b.2 ≤ a.2))).take 3).filter (fun e => e.2 > 2)).map (fun e => e.1)
  let mostRecs := if mostConnected.length > 0 then
      ["Critical path services with most connections: " ++
        String.intercalate ", " mostConnected ++ ". Consider monitoring these closely."]
    else []
  let summary := "Service mesh has " ++ Nat.repr services.length ++ " services with " ++
    Nat.repr connections.length ++ " connections. " ++
    (if healthSummary.critical > 0 ∨ healthSummary.warning > 0 then
      "There are " ++ Nat.repr healthSummary.critical ++ " critical and " ++
        Nat.repr healthSummary.warning ++ " warning health issues. "
     else "All services have passing health checks. ") ++
    (if failingConnections.length > 0 then
      Nat.repr failingConnections.length ++ " connections are experiencing issues."
     else "All connections are healthy.")
  let issues := criticalIssues ++ warningIssues ++ failingIssues ++ isolatedIssues
  let issuesFinal := if issues.length = 0 then
      ["No issues detected in the service mesh"] else issues
  let recs := isolatedRecs ++ mostRecs
  let recsFinal := if issues.length = 0 then
      recs ++ ["Continue monitoring service health and connections"] else recs
  { summary := summary, issues := issuesFinal, recommendations := dedupFirst recsFinal }

theorem string_data_append (a b : String) : (a ++ b).data = a.data ++ b.data := by
  cases a
  cases b
  rfl

theorem string_append_assoc (a b c : String) : a ++ b ++ c = a ++ (b ++ c) := by
  cases a
  cases b
  cases c
  exact congrArg String.mk (List.append_assoc _ _ _)

theorem digitChar_isDigit : ∀ n : Nat, n < 10 → (Nat.digitChar n).isDigit = true := by
  decide

theorem toDigitsCore_all_digits (fuel : Nat) :
    ∀ (n : Nat) (ds : List Char), (∀ c ∈ ds, c.isDigit = true) →
      ∀ c ∈ Nat.toDigitsCore 10 fuel n ds, c.isDigit = true := by
  induction fuel with
  | zero =>
    intro n ds h c hc
    exact h c hc
  | succ f ih =>
    intro n ds h c hc
    simp only [Nat.toDigitsCore] at hc
    have hd : ∀ c ∈ (Nat.digitChar (n % 10) :: ds), c.isDigit = true := by
      intro c hc0
      rcases List.mem_cons.mp hc0 with h0 | h0
      · rw [h0]
        exact digitChar_isDigit _ (Nat.mod_lt _ (by omega))
      · exact h c h0
    by_cases hz : n / 10 = 0
    · rw [if_pos hz] at hc
      exact hd c hc
    · rw [if_neg hz] at hc
      exact ih (n / 10) _ hd c hc

theorem toDigitsCore_ne_nil (b fuel : Nat) :
    ∀ (n : Nat) (ds : List Char), ds ≠ [] → Nat.toDigitsCore b fuel n ds ≠ [] := by
  induction fuel with
  | zero =>
    intro n ds h
    simpa [Nat.toDigitsCore] using h
  | succ f ih =>
    intro n ds h
    simp only [Nat.toDigitsCore]
    by_cases hz : n / b = 0
    · simp [hz]
    · rw [if_neg hz]
      exact ih (n / b) _ (by simp)

theorem natRepr_data_eq (n : Nat) : (Nat.repr n).data = Nat.toDigits 10 n := rfl

theorem natRepr_head_digit (n : Nat) :
    ∃ c cs, (Nat.repr n).data = c :: cs ∧ c.isDigit = true := by
  have hne : (Nat.repr n).data ≠ [] := by
    rw [natRepr_data_eq]
    simp only [Nat.toDigits, Nat.toDigitsCore]
    by_cases hz : n / 10 = 0
    · simp [hz]
    · rw [if_neg hz]
      exact toDigitsCore_ne_nil 10 n (n / 10) _ (by simp)
  have hall : ∀ c ∈ (Nat.repr n).data, c.isDigit = true := by
    rw [natRepr_data_eq]
    exact toDigitsCore_all_digits (n + 1) n [] (by simp)
  cases hd : (Nat.repr n).data with
  | nil => exact absurd hd hne
  | cons c cs =>
    refine ⟨c, cs, rfl, ?_⟩
    exact hall c (by rw [hd]; exact List.mem_cons_self _ _)

theorem natRepr_append_ne_sentinel (n : Nat) (s : String) :
    Nat.repr n ++ s ≠ "No issues detected in the service mesh" := by
  intro h
  obtain ⟨c, cs, hc, hdig⟩ := natRepr_head_digit n
  have hdata := congrArg String.data h
  rw [string_data_append, hc] at hdata
  have hsent : ("No issues detected in the service mesh" : String).data =
      'N' :: "o issues detected in the service mesh".data := rfl
  rw [hsent, List.cons_append] at hdata
  have hcn : c = 'N' := (List.cons.injEq _ _ _ _ ▸ hdata).1
  rw [hcn] at hdig
  exact absurd hdig (by decide)

theorem setEntry_keys_mem (m : List (String × List String)) (k : String)
    (v : List String) (x : String) :
    x ∈ (setEntry m k v).map Prod.fst ↔ x ∈ m.map Prod.fst ∨ x = k := by
  induction m with
  | nil => simp [setEntry]
  | cons e rest ih =>
    by_cases h : e.1 = k
    · simp only [setEntry, if_pos h, List.map_cons, List.mem_cons]
      rw [← h]
      tauto
    · simp only [setEntry, if_neg h, List.map_cons, List.mem_cons, ih]
      tauto

theorem setEntry_nil_values (m : List (String × List String)) (k : String)
    (h : ∀ e ∈ m, e.2 = ([] : List String)) :
    ∀ e ∈ setEntry m k [], e.2 = ([] : List String) := by
  induction m with
  | nil =>
    intro e he
    simp only [setEntry, List.mem_singleton] at he
    rw [he]
  | cons e0 rest ih =>
    intro e he
    simp only [setEntry] at he
    split at he
    · rcases List.mem_cons.mp he with h1 | h1
      · rw [h1]
      · exact h e (List.mem_cons_of_mem _ h1)
    · rcases List.mem_cons.mp he with h1 | h1
      · rw [h1]
        exact h e0 (List.mem_cons_self _ _)
      · exact ih (fun e2 he2 => h e2 (List.mem_cons_of_mem _ he2)) e h1

theorem initMap_keys (services : List ConsulService)
    (m0 : List (String × List String)) (x : String) :
    x ∈ (services.foldl (fun m s => setEntry m s.name []) m0).map Prod.fst ↔
      x ∈ m0.map Prod.fst ∨ x ∈ services.map ConsulService.name := by
  induction services generalizing m0 with
  | nil => simp
  | cons s rest ih =>
    simp only [List.foldl_cons, ih, setEntry_keys_mem, List.map_cons, List.mem_cons]
    tauto

theorem initMap_values (services : List ConsulService)
    (m0 : List (String × List String)) (h : ∀ e ∈ m0, e.2 = ([] : List String)) :
    ∀ e ∈ services.foldl (fun m s => setEntry m s.name []) m0,
      e.2 = ([] : List String) := by
  induction services generalizing m0 with
  | nil => exact h
  | cons s rest ih => exact ih _ (setEntry_nil_values m0 s.name h)

theorem overall_passing_of_counts (allChecks : List HealthCheck)
    (hc : ¬ (getHealthSummary allChecks).critical > 0)
    (hw : ¬ (getHealthSummary allChecks).warning > 0) :
    (getHealthSummary allChecks).overallStatus = "passing" := by
  simp only [getHealthSummary] at hc hw ⊢
  rw [if_neg hc, if_neg hw]

theorem sentinel_not_mem_segments (xs : List String)
    (h : ∀ x ∈ xs, ∃ n s, x = Nat.repr n ++ s) :
    "No issues detected in the service mesh" ∉ xs := by
  intro hmem
  rcases h _ hmem with ⟨n, s, hx⟩
  exact natRepr_append_ne_sentinel n s hx.symm

theorem mesh_issues_zero_conns (services : List ConsulService)
    (allChecks : List HealthCheck) :
    (analyzeServiceMesh services [] allChecks).issues =
      (if ((if (getHealthSummary allChecks).critical > 0 then
          [Nat.repr (getHealthSummary allChecks).critical ++
            " services have critical health checks"] else []) ++
        (if (getHealthSummary allChecks).warning > 0 then
          [Nat.repr (getHealthSummary allChecks).warning ++
            " services have warning health checks"] else []) ++
        (if (isolatedServicesOf (connectivityMap services [])).length > 0 then
          [Nat.repr (isolatedServicesOf (connectivityMap services [])).length ++
            " services appear to be isolated: " ++
            String.intercalate ", " (isolatedServicesOf (connectivityMap services []))]
         else [])).length = 0 then
        ["No issues detected in the service mesh"]
       else
        (if (getHealthSummary allChecks).critical > 0 then
          [Nat.repr (getHealthSummary allChecks).critical ++
            " services have critical health checks"] else []) ++
        (if (getHealthSummary allChecks).warning > 0 then
          [Nat.repr (getHealthSummary allChecks).warning ++
            " services have warning health checks"] else []) ++
        (if (isolatedServicesOf (connectivityMap services [])).length > 0 then
          [Nat.repr (isolatedServicesOf (connectivityMap services [])).length ++
            " services appear to be isolated: " ++
            String.intercalate ", " (isolatedServicesOf (connectivityMap services []))]
         else [])) := by
  simp [analyzeServiceMesh]

/-- C8: over zero connections, mesh analysis reports exactly the known
service names as isolated (membership in the isolated list coincides with
membership in the service-name list), and the "No issues detected in the
service mesh" sentinel can appear among the mesh issues only when the health
summary's overallStatus is "passing". -/
theorem claim_C8_mesh_zero_connections (services : List ConsulService)
    (allChecks : List HealthCheck) :
    (∀ name : String,
      name ∈ isolatedServicesOf (connectivityMap services []) ↔
        name ∈ services.map ConsulService.name) ∧
    ("No issues detected in the service mesh" ∈
        (analyzeServiceMesh services [] allChecks).issues →
      (getHealthSummary allChecks).overallStatus = "passing") := by
  have hmap : connectivityMap services [] =
      services.foldl (fun m s => setEntry m s.name []) [] := rfl
  have hvals : ∀ e ∈ connectivityMap services [], e.2 = ([] : List String) := by
    rw [hmap]
    exact initMap_values services [] (by intro e he; simp at he)
  constructor
  · intro name
    constructor
    · intro hmem
      rcases List.mem_map.mp hmem with ⟨e, he, rfl⟩
      have he' : e ∈ connectivityMap services [] := List.mem_of_mem_filter he
      have hk : e.1 ∈ (connectivityMap services []).map Prod.fst :=
        List.mem_map_of_mem _ he'
      rw [hmap, initMap_keys] at hk
      simpa using hk
    · intro hname
      have hk : name ∈ (connectivityMap services []).map Prod.fst := by
        rw [hmap, initMap_keys]
        exact Or.inr hname
      rcases List.mem_map.mp hk with ⟨e, he, rfl⟩
      refine List.mem_map_of_mem _ (List.mem_filter.mpr ⟨he, ?_⟩)
      simp [hvals e he]
      intro a b hab
      have h2 : b = [] := hvals (a, b) hab
      simp [h2]
  · intro hmem
    rw [mesh_issues_zero_conns] at hmem
    by_cases hlen : ((if (getHealthSummary allChecks).critical > 0 then
          [Nat.repr (getHealthSummary allChecks).critical ++
            " services have critical health checks"] else []) ++
        (if (getHealthSummary allChecks).warning > 0 then
          [Nat.repr (getHealthSummary allChecks).warning ++
            " services have warning health checks"] else []) ++
        (if (isolatedServicesOf (connectivityMap services [])).length > 0 then
          [Nat.repr (isolatedServicesOf (connectivityMap services [])).length ++
            " services appear to be isolated: " ++
            String.intercalate ", " (isolatedServicesOf (connectivityMap services []))]
         else [])).length = 0
    · have hc : ¬ (getHealthSummary allChecks).critical > 0 := by
        intro hcpos
        rw [if_pos hcpos] at hlen
        simp at hlen
      have hw : ¬ (getHealthSummary allChecks).warning > 0 := by
        intro hwpos
        rw [if_pos hwpos] at hlen
        simp at hlen
      exact overall_passing_of_counts allChecks hc hw
    · rw [if_neg hlen] at hmem
      exfalso
      refine sentinel_not_mem_segments _ ?_ hmem
      intro x hx
      rcases List.mem_append.mp hx with hx1 | hx1
      · rcases List.mem_append.mp hx1 with hx2 | hx2
        · by_cases h : (getHealthSummary allChecks).critical > 0
          · rw [if_pos h] at hx2
            exact ⟨(getHealthSummary allChecks).critical,
              " services have critical health checks", List.mem_singleton.mp hx2⟩
          · rw [if_neg h] at hx2
            exact absurd hx2 (List.not_mem_nil x)
        · by_cases h : (getHealthSummary allChecks).warning > 0
          · rw [if_pos h] at hx2
            exact ⟨(getHealthSummary allChecks).warning,
              " services have warning health checks", List.mem_singleton.mp hx2⟩
          · rw [if_neg h] at hx2
            exact absurd hx2 (List.not_mem_nil x)
      · by_cases h : (isolatedServicesOf (connectivityMap services [])).length > 0
        · rw [if_pos h] at hx1
          refine ⟨(isolatedServicesOf (connectivityMap services [])).length,
            " services appear to be isolated: " ++
              String.intercalate ", " (isolatedServicesOf (connectivityMap services [])), ?_⟩
          rw [← string_append_assoc]
          exact List.mem_singleton.mp hx1
        · rw [if_neg h] at hx1
          exact absurd hx1 (List.not_mem_nil x)

theorem claim_C8_mesh_zero_connections_witness :
    (getHealthSummary ([] : List HealthCheck)).overallStatus = "passing" :=
  (claim_C8_mesh_zero_connections [] []).2 (by decide)

/-- `DiagramGenerator.formatId`: every character outside [A-Za-z0-9] becomes
an underscore (`name.replace(/[^a-zA-Z0-9]/g, '_')`). -/
def formatId (name : String) : String :=
  String.mk (name.toList.map (fun c => if c.isAlphanum then c else '_'))

/-- `DiagramGenerator.getHealthStyle`. -/
def getHealthStyle (status : String) : String :=
  if status = "critical" then ":::critical"
  else if status = "warning" then ":::warning"
  else if status = "passing" then ":::healthy"
  else ""

/-- `DiagramGenerator.getConnectionStyle`. -/
def getConnectionStyle (status : String) : String :=
  if status = "degraded" ∨ status = "failing" then ":::failingConn"
  else if status = "warning" then ":::warningConn"
  else if status = "blocked" then ":::failingConn"
  else ""

/-- Options of `generateServiceDiagram` (interface `DiagramOptions`). -/
structure DiagramOptions where
  includeHealth : Bool
  includeMetrics : Bool
deriving DecidableEq, Repr

/-- One node line of the diagram: `    id["name"]`, styled by health when
requested. -/
def nodeLine (options : DiagramOptions) (service : ConsulService) : String :=
  if options.includeHealth then
    "    " ++ formatId service.name ++ "[\"" ++ service.name ++ "\"]" ++
      getHealthStyle service.health.status ++ "\n"
  else
    "    " ++ formatId service.name ++ "[\"" ++ service.name ++ "\"]" ++ "\n"

/-- One edge line: `  src -->`, the optional ` |Nms|` label (JS truthiness: a
latency of 0, like an absent one, produces no label), then ` dst:::style`. -/
def connectionLine (options : DiagramOptions) (c : ServiceConnection) : String :=
  let label := if options.includeMetrics then
      match c.latency with
      | some l => if l = 0 then "" else " |" ++ toString l ++ "ms|"
      | none => ""
    else ""
  "  " ++ formatId c.source ++ " -->" ++ (if label = "" then "" else label) ++
    " " ++ formatId c.destination ++ getConnectionStyle c.status ++ "\n"

/-- `DiagramGenerator.generateServiceDiagram`: flowchart header, service
subgraph with one node per service, one edge line per connection, the fixed
legend subgraph and the fixed class-style declarations. -/
def generateServiceDiagram (services : List ConsulService)
    (connections : List ServiceConnection) (options : DiagramOptions) : String :=
  "flowchart TD\n" ++
  "  subgraph \"Consul Service Mesh\"\n" ++
  String.join (services.map (nodeLine options)) ++
  "  end\n\n" ++
  String.join (connections.map (connectionLine options)) ++
  "\n  %% Legend\n" ++
  "  subgraph \"Legend\"\n" ++
  "    healthy[\"Healthy Service\"]:::healthy\n" ++
  "    warning[\"Warning Service\"]:::warning\n" ++
  "    critical[\"Critical Service\"]:::critical\n" ++
  "    healthy_conn[\"Healthy Connection\"];\n" ++
  "    warning_conn[\"Warning Connection\"]:::warningConn;\n" ++
  "    failing_conn[\"Failing Connection\"]:::failingConn;\n" ++
  "  end\n\n" ++
  "  %% Styles\n" ++
  "  classDef healthy fill:#baffc9,stroke:#00ae11,color:#000\n" ++
  "  classDef warning fill:#ffffba,stroke:#ffae00,color:#000\n" ++
  "  classDef critical fill:#ffb3ba,stroke:#ff0000,color:#000\n" ++
  "  classDef warningConn stroke:#ffae00,stroke-width:2px\n" ++
  "  classDef failingConn stroke:#ff0000,stroke-width:2px,stroke-dasharray: 5 5\n"

/-- Concrete service named "order-service!" used by C9. -/
def svcOrderService : ConsulService :=
  { id := "order-1", name := "order-service!", address := "10.0.0.6", port := "80",
    node := "n1", tags := [], meta := [],
    health := { status := "passing", checks := [] } }

/-- C9: node identifiers are the service name with every character outside
[A-Za-z0-9] replaced by an underscore — character-wise, for every name — and
the service named "order-service!" renders node id "order_service_" in the
generated diagram. -/
theorem claim_C9_diagram_sanitization :
    (∀ name : String, (formatId name).data =
      name.data.map (fun c => if c.isAlphanum then c else '_')) ∧
    formatId "order-service!" = "order_service_" ∧
    strIncludes
      (generateServiceDiagram [svcOrderService] [] ⟨true, true⟩)
      "order_service_[\"order-service!\"]" = true := by
  refine ⟨fun name => rfl, by decide, by decide⟩
